import Mathlib

/-!
Shallow embedding of the maintenance-analytics KPI core
(`kpi_calculations.py`, `advanced_analytics.py`) and proofs about it.

Numeric columns are modelled as exact rationals (`ℚ`); the one place the
source takes a square root (the cost-forecast standard deviation) is
modelled over `ℝ` with `Real.sqrt`.  Python `round(x, n)` rounds half to
even; `rint` below reproduces that tie rule exactly.
-/

namespace MaintDash

/-- Round to the nearest integer, ties to even (Python `round` semantics). -/
def rint {α : Type} [LinearOrderedField α] [FloorRing α] (q : α) : ℤ :=
  if q - ⌊q⌋ < 1/2 then ⌊q⌋
  else if (1/2 : α) < q - ⌊q⌋ then ⌊q⌋ + 1
  else if ⌊q⌋ % 2 = 0 then ⌊q⌋ else ⌊q⌋ + 1

/-- `round(x, 1)` of the source. -/
def round1 {α : Type} [LinearOrderedField α] [FloorRing α] (q : α) : α :=
  (rint (q * 10) : α) / 10

/-- `round(x, 2)` of the source. -/
def round2 {α : Type} [LinearOrderedField α] [FloorRing α] (q : α) : α :=
  (rint (q * 100) : α) / 100

/-- Maximum of a list (`Series.max()`); `d` is returned on the empty list. -/
def listMax {α : Type} [LinearOrder α] (d : α) : List α → α
  | [] => d
  | [x] => x
  | x :: y :: xs => max x (listMax d (y :: xs))

/-- Minimum of a list (`Series.min()`); `d` is returned on the empty list. -/
def listMin {α : Type} [LinearOrder α] (d : α) : List α → α
  | [] => d
  | [x] => x
  | x :: y :: xs => min x (listMin d (y :: xs))

/-- Arithmetic mean of a list of rationals (`Series.mean()`);
the empty list yields `0/0 = 0` in `ℚ` (pandas would yield NaN —
all uses below are guarded by non-emptiness). -/
def meanQ (l : List ℚ) : ℚ := l.sum / l.length

/-- A row of the work-orders fact table (`Fact_WorkOrders`): the columns
the KPI core reads.  `date` is the event date as an absolute day number. -/
structure WorkOrder where
  workOrderID : ℕ
  equipmentID : ℕ
  date : ℤ
  maintenanceType : String
  downtimeHours : ℚ
  totalCost : ℚ
deriving Repr, DecidableEq

/-- `df_wo[df_wo['MaintenanceType'] == 'Breakdown']`. -/
def breakdownOrders (wos : List WorkOrder) : List WorkOrder :=
  wos.filter (fun w => w.maintenanceType = "Breakdown")

/-- The distinct `EquipmentID` keys of a `groupby('EquipmentID')`. -/
def equipmentKeys (wos : List WorkOrder) : List ℕ :=
  (wos.map (·.equipmentID)).dedup

/-- One output row of `calculate_mtbf`
(columns `[group_by, 'MTBF_Hours', 'Failure_Count']`). -/
structure MTBFRow where
  equipmentID : ℕ
  mtbfHours : ℚ
  failureCount : ℕ
deriving Repr, DecidableEq

/-- `calculate_mtbf` of `kpi_calculations.py`: on the Breakdown subset,
per equipment group, `MTBF_Hours = clip(lower=0)((days*24 - Σ downtime) /
failure_count)`.  An empty breakdown subset yields the empty table. -/
def calculate_mtbf (wos : List WorkOrder) (days : ℚ) : List MTBFRow :=
  let totalOperatingHours := days * 24
  let bd := breakdownOrders wos
  (equipmentKeys bd).map (fun k =>
    let g := bd.filter (fun w => w.equipmentID = k)
    let dt := (g.map (·.downtimeHours)).sum
    { equipmentID := k
      mtbfHours := max 0 ((totalOperatingHours - dt) / (g.length : ℚ))
      failureCount := g.length })

/-- The dict returned by `calculate_equipment_availability`. -/
structure AvailabilityResult where
  availabilityPct : ℚ
  totalDowntimeHours : ℚ
  totalAvailableHours : ℚ
  uptimeHours : ℚ
deriving Repr, DecidableEq

/-- `df_wo['DowntimeHours'].sum()`. -/
def totalDowntime (wos : List WorkOrder) : ℚ :=
  (wos.map (·.downtimeHours)).sum

/-- `calculate_equipment_availability` of `kpi_calculations.py`:
availability over `equipment_count * days * 24` available hours, with the
explicit zero-hours fallback returning 100% and zero hours. -/
def calculate_equipment_availability (wos : List WorkOrder)
    (equipmentCount : ℕ) (days : ℚ) : AvailabilityResult :=
  let totalAvailableHours : ℚ := (equipmentCount : ℚ) * days * 24
  let dt := totalDowntime wos
  if totalAvailableHours = 0 then
    { availabilityPct := 100
      totalDowntimeHours := 0
      totalAvailableHours := 0
      uptimeHours := 0 }
  else
    { availabilityPct :=
        round2 (max 0 ((totalAvailableHours - dt) / totalAvailableHours * 100))
      totalDowntimeHours := round2 dt
      totalAvailableHours := round2 totalAvailableHours
      uptimeHours := round2 (max 0 (totalAvailableHours - dt)) }

/-- The dict returned by `calculate_maintenance_mix`. -/
structure MaintenanceMix where
  preventiveCount : ℕ
  breakdownCount : ℕ
  preventivePct : ℚ
  breakdownPct : ℚ
  preventiveCost : ℚ
  breakdownCost : ℚ
  preventiveDowntime : ℚ
  breakdownDowntime : ℚ
deriving Repr, DecidableEq

/-- `calculate_maintenance_mix` of `kpi_calculations.py`: counts, cost and
downtime split by maintenance type; percentages against the total row
count, `0` when the table is empty. -/
def calculate_maintenance_mix (wos : List WorkOrder) : MaintenanceMix :=
  let total := wos.length
  let pwos := wos.filter (fun w => w.maintenanceType = "Preventive")
  let bwos := wos.filter (fun w => w.maintenanceType = "Breakdown")
  { preventiveCount := pwos.length
    breakdownCount := bwos.length
    preventivePct :=
      if 0 < total then round1 ((pwos.length : ℚ) / (total : ℚ) * 100) else 0
    breakdownPct :=
      if 0 < total then round1 ((bwos.length : ℚ) / (total : ℚ) * 100) else 0
    preventiveCost := (pwos.map (·.totalCost)).sum
    breakdownCost := (bwos.map (·.totalCost)).sum
    preventiveDowntime := (pwos.map (·.downtimeHours)).sum
    breakdownDowntime := (bwos.map (·.downtimeHours)).sum }

/-- A row of the inventory-transactions fact table; `quantity` is signed
(negative = issue).  `date` is an absolute day number. -/
structure Transaction where
  transactionID : ℕ
  productID : ℕ
  date : ℤ
  quantity : ℚ
  ttype : String
  unitCost : ℚ
deriving Repr, DecidableEq

/-- A row of the products dimension: the columns the coverage KPI reads. -/
structure Product where
  productID : ℕ
  currentStock : ℚ
  reorderPoint : ℚ
deriving Repr, DecidableEq

/-- `df_trans[df_trans['Type'] == 'Issue']`. -/
def issueTrans (ts : List Transaction) : List Transaction :=
  ts.filter (fun t => t.ttype = "Issue")

/-- `(issues['Date'].max() - issues['Date'].min()).days or 1`: the span of
issue dates, with `0` replaced by `1` (Python `or`). -/
def dateRange (issues : List Transaction) : ℤ :=
  if listMax 0 (issues.map (·.date)) - listMin 0 (issues.map (·.date)) = 0 then 1
  else listMax 0 (issues.map (·.date)) - listMin 0 (issues.map (·.date))

/-- `Avg_Daily_Usage` of a product after the left merge with `fillna(0)`:
`abs(sum of issue quantities) / date_range` when the product occurs in the
issue transactions, else the filled `0`. -/
def avgDailyUsage (ts : List Transaction) (pid : ℕ) : ℚ :=
  let issues := issueTrans ts
  let g := issues.filter (fun t => t.productID = pid)
  if g.isEmpty then 0
  else |(g.map (·.quantity)).sum| / ((dateRange issues : ℤ) : ℚ)

/-- `Coverage_Days`: a finite number of days or the `np.inf` sentinel. -/
inductive Coverage where
  | inf
  | days (q : ℚ)
deriving Repr, DecidableEq

/-- `np.where(avg > 0, stock / avg, np.inf)`. -/
def coverageDays (stock avg : ℚ) : Coverage :=
  if 0 < avg then .days (stock / avg) else .inf

/-- `get_coverage_status`: the `np.inf` sentinel is matched first, then the
numeric 7- and 30-day thresholds. -/
def coverageStatus : Coverage → String
  | .inf => "No Usage"
  | .days d => if d ≤ 7 then "Critical" else if d ≤ 30 then "Warning" else "Healthy"

/-- One output row of `calculate_stock_coverage_days`. -/
structure CoverageRow where
  productID : ℕ
  currentStock : ℚ
  avgDailyUsage : ℚ
  coverageDays : Coverage
  coverageStatus : String
deriving Repr, DecidableEq

/-- `calculate_stock_coverage_days` of `kpi_calculations.py`: one row per
product (left-merge of the products dimension with per-product issue
usage). -/
def calculate_stock_coverage_days (ts : List Transaction) (ps : List Product) :
    List CoverageRow :=
  ps.map (fun p =>
    let avg := avgDailyUsage ts p.productID
    let cd := coverageDays p.currentStock avg
    { productID := p.productID
      currentStock := p.currentStock
      avgDailyUsage := avg
      coverageDays := cd
      coverageStatus := coverageStatus cd })

/-- A float value as pandas produces it from elementwise arithmetic:
a finite rational or one of the IEEE non-finite values `inf`, `-inf`,
`NaN` (no exception is ever raised). -/
inductive FVal where
  | num (q : ℚ)
  | inf
  | ninf
  | nan
deriving Repr, DecidableEq

/-- IEEE-style division `a / b` as pandas performs it elementwise:
finite quotient for `b ≠ 0`, signed infinity for `a ≠ 0, b = 0`,
`NaN` for `0 / 0`. -/
def fdiv (a b : ℚ) : FVal :=
  if b ≠ 0 then .num (a / b)
  else if 0 < a then .inf
  else if a < 0 then .ninf
  else .nan

/-- Multiplication by the positive constant `100`. -/
def FVal.mul100 : FVal → FVal
  | .num q => .num (q * 100)
  | .inf => .inf
  | .ninf => .ninf
  | .nan => .nan

/-- IEEE absolute value. -/
def FVal.fabs : FVal → FVal
  | .num q => .num |q|
  | .inf => .inf
  | .ninf => .inf
  | .nan => .nan

/-- IEEE subtraction of a float from the finite constant `c`. -/
def FVal.constSub (c : ℚ) : FVal → FVal
  | .num q => .num (c - q)
  | .inf => .ninf
  | .ninf => .inf
  | .nan => .nan

/-- `get_variance_status`: note that comparisons with `NaN` are false, so
`NaN` falls through to "On Track", and `inf` takes the first branch. -/
def varianceStatus : FVal → String
  | .num q => if 5 < q then "Over Budget" else if q < -5 then "Under Budget" else "On Track"
  | .inf => "Over Budget"
  | .ninf => "Under Budget"
  | .nan => "On Track"

/-- A row of the costs fact table: the columns `calculate_payment_variance`
reads. -/
structure CostRecord where
  costID : ℕ
  vendorID : ℕ
  contractValue : ℚ
  actualPayment : ℚ
deriving Repr, DecidableEq

/-- One output row of `calculate_payment_variance`. -/
structure VarianceRow where
  vendorID : ℕ
  totalContract : ℚ
  totalActual : ℚ
  transactionCount : ℕ
  variance : ℚ
  variancePct : FVal
  status : String
deriving Repr, DecidableEq

/-- `calculate_payment_variance` of `kpi_calculations.py`: per-vendor sums,
`Variance_Pct = Variance / Total_Contract * 100` with NO guard on the
denominator (pandas IEEE semantics), and the derived status. -/
def calculate_payment_variance (cs : List CostRecord) : List VarianceRow :=
  ((cs.map (·.vendorID)).dedup).map (fun v =>
    let g := cs.filter (fun c => c.vendorID = v)
    let tc := (g.map (·.contractValue)).sum
    let ta := (g.map (·.actualPayment)).sum
    let vpct := (fdiv (ta - tc) tc).mul100
    { vendorID := v
      totalContract := tc
      totalActual := ta
      transactionCount := g.length
      variance := ta - tc
      variancePct := vpct
      status := varianceStatus vpct })

/-- A row of the budget-vs-actual fact table.  `date` is a month code. -/
structure BudgetLine where
  date : ℤ
  costCenter : String
  glAccount : String
  budgetAmount : ℚ
  actualAmount : ℚ
deriving Repr, DecidableEq

/-- One output row of `calculate_budget_adherence`. -/
structure AdherenceRow where
  costCenter : String
  glAccount : String
  totalBudget : ℚ
  totalActual : ℚ
  variance : ℚ
  variancePct : FVal
  adherencePct : FVal
deriving Repr, DecidableEq

/-- `calculate_budget_adherence` of `kpi_calculations.py`: sums grouped by
`(CostCenter, GLAccount)`, `Variance_Pct = Variance / Total_Budget * 100`
with NO guard on the denominator, and
`Adherence_Pct = 100 - abs(Variance_Pct)`. -/
def calculate_budget_adherence (bs : List BudgetLine) : List AdherenceRow :=
  ((bs.map (fun b => (b.costCenter, b.glAccount))).dedup).map (fun k =>
    let g := bs.filter (fun b => b.costCenter = k.1 ∧ b.glAccount = k.2)
    let tb := (g.map (·.budgetAmount)).sum
    let ta := (g.map (·.actualAmount)).sum
    let vpct := (fdiv (ta - tb) tb).mul100
    { costCenter := k.1
      glAccount := k.2
      totalBudget := tb
      totalActual := ta
      variance := ta - tb
      variancePct := vpct
      adherencePct := vpct.fabs.constSub 100 })

/-- A row of the vendor dimension: the columns `calculate_vendor_score`
reads. -/
structure Vendor where
  vendorID : ℕ
  rating : ℚ
  avgDeliveryDelay : ℚ
  qualityScore : ℚ
deriving Repr, DecidableEq

/-- `CompositeScore` of `calculate_vendor_score`:
`((Rating*10) + (QualityScore*0.4) + clip(lower=0)(10-Delay)*2)
.clip(upper=100).round(1)`. -/
def compositeScore (rating quality delay : ℚ) : ℚ :=
  round1 (min (rating * 10 + quality * (4/10) + max 0 (10 - delay) * 2) 100)

/-- `get_tier` of `calculate_vendor_score`. -/
def vendorTier (score : ℚ) : String :=
  if 90 ≤ score then "Strategic Partner"
  else if 80 ≤ score then "Preferred"
  else if 70 ≤ score then "Standard"
  else "At Risk"

/-- One output row of `calculate_vendor_score`. -/
structure VendorRow where
  vendorID : ℕ
  compositeScore : ℚ
  tier : String
deriving Repr, DecidableEq

/-- `calculate_vendor_score` of `advanced_analytics.py` (the derived
columns it appends to the vendor table). -/
def calculate_vendor_score (vs : List Vendor) : List VendorRow :=
  vs.map (fun v =>
    let s := compositeScore v.rating v.qualityScore v.avgDeliveryDelay
    { vendorID := v.vendorID, compositeScore := s, tier := vendorTier s })

/-- A row of the sensor-readings table; `timeStamp` is in hours. -/
structure SensorReading where
  timeStamp : ℚ
  equipmentID : ℕ
  temperatureC : ℚ
  vibrationMM : ℚ
deriving Repr, DecidableEq

/-- The temperature rules of `predict_failure_probability`: starting from
`prob = 0.0, insight = "Normal Operation"`, apply the
`avg_temp > 95` / `elif avg_temp > 85` branch. -/
def tempStep (avgTemp : ℚ) : ℚ × String :=
  if 95 < avgTemp then (6/10, "Critical Overheating Detected")
  else if 85 < avgTemp then (3/10, "High Operating Temperature")
  else (0, "Normal Operation")

/-- The vibration rules of `predict_failure_probability`.  Faithful to the
source: `prob += 0.5` is executed BEFORE the `if prob > 0` test of the
label expression, so the test sees the already-incremented score. -/
def vibStep (maxVib : ℚ) (ps : ℚ × String) : ℚ × String :=
  if 5 < maxVib then
    let p := ps.1 + 5/10
    (p, if 0 < p then ps.2 ++ " + Excessive Vibration"
        else "Excessive Vibration Detected")
  else if 7/2 < maxVib then (ps.1 + 2/10, ps.2)
  else ps

/-- One output row of `predict_failure_probability`. -/
structure FailureRow where
  equipmentID : ℕ
  avgTemp : ℚ
  maxVibration : ℚ
  failureProbability : ℚ
  insight : String
  status : String
deriving Repr, DecidableEq

/-- `predict_failure_probability` of `advanced_analytics.py`: restrict to
readings strictly newer than `latest - window_hours`, group by equipment,
score each group's mean temperature and max vibration by the heuristic
rules, cap the probability at 0.99. -/
def predict_failure_probability (rs : List SensorReading) (windowHours : ℚ) :
    List FailureRow :=
  let latest := listMax 0 (rs.map (·.timeStamp))
  let recent := rs.filter (fun r => latest - windowHours < r.timeStamp)
  ((recent.map (·.equipmentID)).dedup).map (fun k =>
    let g := recent.filter (fun r => r.equipmentID = k)
    let avgTemp := meanQ (g.map (·.temperatureC))
    let maxVib := listMax 0 (g.map (·.vibrationMM))
    let ps := vibStep maxVib (tempStep avgTemp)
    let prob := min ps.1 (99/100)
    { equipmentID := k
      avgTemp := round1 avgTemp
      maxVibration := round2 maxVib
      failureProbability := round1 (prob * 100)
      insight := ps.2
      status := if 6/10 < prob then "Critical"
                else if 3/10 < prob then "Warning" else "Healthy" })

/-- Insertion of an integer into a sorted list (ascending). -/
def insertSorted (x : ℤ) : List ℤ → List ℤ
  | [] => [x]
  | y :: ys => if x ≤ y then x :: y :: ys else y :: insertSorted x ys

/-- Insertion sort, ascending — the key order `groupby` sorts into. -/
def sortZ : List ℤ → List ℤ
  | [] => []
  | x :: xs => insertSorted x (sortZ xs)

/-- `df.groupby('Date')['ActualAmount'].sum().sort_index()`: the distinct
month codes in ascending order, each with its total actual amount. -/
def monthlyTotals (bs : List BudgetLine) : List (ℤ × ℚ) :=
  (sortZ ((bs.map (·.date)).dedup)).map (fun d =>
    (d, ((bs.filter (fun b => b.date = d)).map (·.actualAmount)).sum))

/-- `DataFrame.tail(6)`. -/
def tail6 {α : Type} (l : List α) : List α := l.drop (l.length - 6)

/-- The amounts of the trailing window `monthly_costs.tail(6)`. -/
def trailingWindow (bs : List BudgetLine) : List ℚ :=
  (tail6 (monthlyTotals bs)).map Prod.snd

/-- `Series.std()` uses `ddof=1`: the SAMPLE variance
`Σ (x - mean)² / (n - 1)`.  (For a singleton window pandas yields NaN;
in `ℚ` the division by `0` yields `0` — every theorem below excludes the
singleton case by hypothesis.) -/
def sampleVar (l : List ℚ) : ℚ :=
  ((l.map (fun x => (x - meanQ l) ^ 2)).sum) / ((l.length : ℚ) - 1)

/-- Population variance `Σ (x - mean)² / n` — this definition follows the
SPEC's words ("population std of that window"), for comparison with the
source's `sampleVar`. -/
def popVar (l : List ℚ) : ℚ :=
  ((l.map (fun x => (x - meanQ l) ^ 2)).sum) / (l.length : ℚ)

/-- One output row of `forecast_maintenance_costs`; the amounts are reals
because the standard deviation is a square root. -/
structure ForecastRow where
  date : ℤ
  forecastAmount : ℝ
  lowerBound : ℝ
  upperBound : ℝ

/-- `forecast_maintenance_costs` of `advanced_analytics.py`: mean and
sample standard deviation of the trailing six monthly totals; for each
future month `i` in `1..months_ahead`, forecast
`avg * (1 + 0.02*i)` with bounds `forecast ∓ std`, all rounded to 2
decimals. -/
noncomputable def forecast_maintenance_costs (bs : List BudgetLine)
    (monthsAhead : ℕ) : List ForecastRow :=
  let w := trailingWindow bs
  let avgCost : ℝ := (meanQ w : ℚ)
  let stdDev : ℝ := Real.sqrt ((sampleVar w : ℚ) : ℝ)
  let lastDate := listMax 0 ((monthlyTotals bs).map Prod.fst)
  (List.range monthsAhead).map (fun j =>
    let i : ℕ := j + 1
    let forecast := avgCost * (1 + (i : ℝ) * (2/100))
    { date := lastDate + (i : ℤ)
      forecastAmount := round2 forecast
      lowerBound := round2 (forecast - stdDev)
      upperBound := round2 (forecast + stdDev) })

/-- The dict returned by `get_executive_summary` (the fields the claims
are about, plus the rest of the scalar fields). -/
structure ExecSummary where
  totalMaintenanceCost : ℚ
  preventiveCost : ℚ
  breakdownCost : ℚ
  availabilityPct : ℚ
  totalDowntime : ℚ
  unplannedDowntime : ℚ
  plannedDowntime : ℚ
  mttrHours : ℚ
  mtbfHours : ℚ
  totalWorkOrders : ℕ
  breakdownCount : ℕ
  preventivePct : ℚ
  criticalStockItems : ℕ
  daysInPeriod : ℚ
  equipmentCount : ℕ
deriving Repr, DecidableEq

/-- The period length derived by `get_executive_summary`:
`(Date.max() - Date.min()).days + 1` for a non-empty work-order table,
else the 365-day fallback. -/
def execDays (wos : List WorkOrder) : ℚ :=
  if wos.isEmpty then 365
  else ((listMax 0 (wos.map (·.date)) - listMin 0 (wos.map (·.date)) + 1 : ℤ) : ℚ)

/-- The equipment count derived by `get_executive_summary`:
`len(equipment_ids)` when the argument is truthy (not `None` and
non-empty), else `nunique` of the work orders' equipment IDs, else `1`. -/
def execEqCount (wos : List WorkOrder) (equipmentIds : Option (List ℕ)) : ℕ :=
  match equipmentIds with
  | some (x :: xs) => (x :: xs).length
  | _ => if wos.isEmpty then 1 else (equipmentKeys wos).length

/-- `get_executive_summary` of `kpi_calculations.py`.  The `df_trans`
argument is accepted but never read by the source.  When there are no
breakdown orders, `overall_mtbf` falls back to the FULL period hours
`eq_count * days * 24` (not 0), and `overall_mttr` falls back to 0. -/
def get_executive_summary (wos : List WorkOrder) (_trans : List Transaction)
    (products : Option (List Product)) (equipmentIds : Option (List ℕ)) :
    ExecSummary :=
  let days := execDays wos
  let eqCount := execEqCount wos equipmentIds
  let availability := calculate_equipment_availability wos eqCount days
  let mix := calculate_maintenance_mix wos
  let bd := breakdownOrders wos
  let overallMttr := if bd.isEmpty then 0 else meanQ (bd.map (·.downtimeHours))
  let failureCount := bd.length
  let totalUnplanned := (bd.map (·.downtimeHours)).sum
  let totalPeriodHours := (eqCount : ℚ) * days * 24
  let overallMtbf :=
    if 0 < failureCount then (totalPeriodHours - totalUnplanned) / (failureCount : ℚ)
    else totalPeriodHours
  let criticalStock :=
    match products with
    | none => 0
    | some ps => (ps.filter (fun p => p.currentStock ≤ p.reorderPoint)).length
  { totalMaintenanceCost := (wos.map (·.totalCost)).sum
    preventiveCost := mix.preventiveCost
    breakdownCost := mix.breakdownCost
    availabilityPct := availability.availabilityPct
    totalDowntime := availability.totalDowntimeHours
    unplannedDowntime := mix.breakdownDowntime
    plannedDowntime := mix.preventiveDowntime
    mttrHours := round2 overallMttr
    mtbfHours := round2 overallMtbf
    totalWorkOrders := wos.length
    breakdownCount := mix.breakdownCount
    preventivePct := mix.preventivePct
    criticalStockItems := criticalStock
    daysInPeriod := days
    equipmentCount := eqCount }

/-- A concrete two-month budget table with monthly totals `[0, 2]`:
sample variance 2 but population variance 1. -/
def fcBudgetCex : List BudgetLine :=
  [⟨0, "cc", "gl", 0, 0⟩, ⟨1, "cc", "gl", 0, 2⟩]

/-- A concrete two-month budget table with equal monthly totals `[10, 10]`
(standard deviation 0). -/
def fcBudgetWit : List BudgetLine :=
  [⟨0, "cc", "gl", 0, 10⟩, ⟨1, "cc", "gl", 0, 10⟩]

/-! ### Helper lemmas: rounding -/

section Rounding

variable {α : Type} [LinearOrderedField α] [FloorRing α]

theorem floor_le_rint (q : α) : ⌊q⌋ ≤ rint q := by
  unfold rint
  split_ifs <;> omega

theorem rint_le_floor_add_one (q : α) : rint q ≤ ⌊q⌋ + 1 := by
  unfold rint
  split_ifs <;> omega

theorem sub_half_le_rint (q : α) : q - 1/2 ≤ (rint q : α) := by
  have hfl : (⌊q⌋ : α) ≤ q := Int.floor_le q
  have hfu : q < (⌊q⌋ : α) + 1 := Int.lt_floor_add_one q
  unfold rint
  split_ifs with h1 h2 h3 <;> push_cast <;> linarith

theorem rint_le_add_half (q : α) : (rint q : α) ≤ q + 1/2 := by
  have hfl : (⌊q⌋ : α) ≤ q := Int.floor_le q
  unfold rint
  split_ifs with h1 h2 h3 <;> push_cast <;> linarith

theorem abs_rint_sub_le (q : α) : |(rint q : α) - q| ≤ 1/2 := by
  rw [abs_le]
  constructor
  · linarith [sub_half_le_rint q]
  · linarith [rint_le_add_half q]

theorem rint_mono {a b : α} (hab : a ≤ b) : rint a ≤ rint b := by
  have hf : ⌊a⌋ ≤ ⌊b⌋ := Int.floor_le_floor hab
  rcases lt_or_eq_of_le hf with hlt | heq
  · calc rint a ≤ ⌊a⌋ + 1 := rint_le_floor_add_one a
      _ ≤ ⌊b⌋ := by omega
      _ ≤ rint b := floor_le_rint b
  · have hc : (⌊a⌋ : α) = (⌊b⌋ : α) := by exact_mod_cast congrArg Int.cast heq
    unfold rint
    rw [heq]
    split_ifs with h1 h2 h3 h4 h5 h6 h7 h8 <;>
      first
        | omega
        | (exfalso; rw [← hc] at *; linarith)

theorem rint_intCast (n : ℤ) : rint ((n : ℤ) : α) = n := by
  unfold rint
  rw [Int.floor_intCast]
  norm_num

theorem round1_mono {a b : α} (hab : a ≤ b) : round1 a ≤ round1 b := by
  unfold round1
  have h : rint (a * 10) ≤ rint (b * 10) := rint_mono (by linarith)
  have h10 : (0 : α) < 10 := by norm_num
  exact (div_le_div_iff_of_pos_right h10).mpr (by exact_mod_cast h)

theorem round2_mono {a b : α} (hab : a ≤ b) : round2 a ≤ round2 b := by
  unfold round2
  have h : rint (a * 100) ≤ rint (b * 100) := rint_mono (by linarith)
  have h100 : (0 : α) < 100 := by norm_num
  exact (div_le_div_iff_of_pos_right h100).mpr (by exact_mod_cast h)

theorem abs_round1_sub_le (q : α) : |round1 q - q| ≤ 1/20 := by
  unfold round1
  have h := abs_rint_sub_le (q * 10)
  rw [abs_le] at h ⊢
  obtain ⟨h1, h2⟩ := h
  constructor <;> [linarith [h1]; linarith [h2]]

theorem abs_round2_sub_le (q : α) : |round2 q - q| ≤ 1/200 := by
  unfold round2
  have h := abs_rint_sub_le (q * 100)
  rw [abs_le] at h ⊢
  obtain ⟨h1, h2⟩ := h
  constructor <;> [linarith [h1]; linarith [h2]]

theorem round1_intCast (n : ℤ) : round1 ((n : ℤ) : α) = ((n : ℤ) : α) := by
  unfold round1
  have h : ((n : ℤ) : α) * 10 = (((n * 10 : ℤ) : ℤ) : α) := by push_cast; ring
  rw [h, rint_intCast]
  push_cast
  field_simp

theorem round2_intCast (n : ℤ) : round2 ((n : ℤ) : α) = ((n : ℤ) : α) := by
  unfold round2
  have h : ((n : ℤ) : α) * 100 = (((n * 100 : ℤ) : ℤ) : α) := by push_cast; ring
  rw [h, rint_intCast]
  push_cast
  field_simp

end Rounding

/-! ### Helper lemmas: list extrema -/

theorem listMin_le_listMax {α : Type} [LinearOrder α] (d : α) :
    ∀ l : List α, l ≠ [] → listMin d l ≤ listMax d l
  | [], h => absurd rfl h
  | [x], _ => le_refl x
  | x :: y :: xs, _ => by
      show min x (listMin d (y :: xs)) ≤ max x (listMax d (y :: xs))
      exact le_trans (min_le_left _ _) (le_max_left _ _)

/-! ### Helper lemmas: inventory usage -/

theorem dateRange_pos (issues : List Transaction) (h : issues ≠ []) :
    0 < dateRange issues := by
  have hds : issues.map (·.date) ≠ [] := by
    simpa [List.map_eq_nil_iff] using h
  have hm := listMin_le_listMax (0 : ℤ) (issues.map (·.date)) hds
  unfold dateRange
  split_ifs with h0
  · norm_num
  · omega

theorem avgDailyUsage_nonneg (ts : List Transaction) (pid : ℕ) :
    0 ≤ avgDailyUsage ts pid := by
  unfold avgDailyUsage
  dsimp only
  split_ifs with hg
  · exact le_refl 0
  · have hne : issueTrans ts ≠ [] := by
      intro hnil
      rw [hnil] at hg
      simp at hg
    have hdr : (0 : ℚ) < ((dateRange (issueTrans ts) : ℤ) : ℚ) := by
      exact_mod_cast dateRange_pos _ hne
    exact div_nonneg (abs_nonneg _) (le_of_lt hdr)

/-! ### Helper lemmas: maintenance-type counting -/

theorem length_filter_pb (wos : List WorkOrder)
    (hdom : ∀ w ∈ wos, w.maintenanceType = "Preventive" ∨ w.maintenanceType = "Breakdown") :
    (wos.filter (fun w => w.maintenanceType = "Preventive")).length
      + (wos.filter (fun w => w.maintenanceType = "Breakdown")).length
      = wos.length := by
  induction wos with
  | nil => rfl
  | cons w ws ih =>
    have hw := hdom w (List.mem_cons_self w ws)
    have hws : ∀ x ∈ ws, x.maintenanceType = "Preventive" ∨ x.maintenanceType = "Breakdown" :=
      fun x hx => hdom x (List.mem_cons_of_mem w hx)
    have hih := ih hws
    rcases hw with hp | hb
    · simp only [List.filter_cons, hp, List.length_cons]
      simp
      omega
    · simp only [List.filter_cons, hb, List.length_cons]
      simp
      omega

/-! ### Helper lemmas: IEEE-style division -/

theorem fdiv_mul100_num {a b : ℚ} (h : b ≠ 0) :
    (fdiv a b).mul100 = FVal.num (a / b * 100) := by
  simp [fdiv, h, FVal.mul100]

theorem fdiv_mul100_inf {a b : ℚ} (hb : b = 0) (ha : 0 < a) :
    (fdiv a b).mul100 = FVal.inf := by
  simp [fdiv, hb, ha, FVal.mul100]

theorem fdiv_mul100_ninf {a b : ℚ} (hb : b = 0) (ha : a < 0) :
    (fdiv a b).mul100 = FVal.ninf := by
  simp [fdiv, hb, not_lt_of_lt ha, ha, FVal.mul100]

theorem fdiv_mul100_nan {a b : ℚ} (hb : b = 0) (ha : a = 0) :
    (fdiv a b).mul100 = FVal.nan := by
  simp [fdiv, hb, ha, FVal.mul100]

/-! ### Claim C1 -/

/-- Claim C1 counterexample: a cost table whose single vendor has total
contract value 0 and total actual payment 0.  The unguarded division makes
`Variance_Pct` the undefined number NaN (`0/0`), which is none of the
sentinel values 0, 100, +∞ the claim allows. -/
theorem C1_counterexample :
    calculate_payment_variance [⟨1, 7, 0, 0⟩]
      = [{ vendorID := 7, totalContract := 0, totalActual := 0,
           transactionCount := 1, variance := 0,
           variancePct := FVal.nan, status := "On Track" }] ∧
    FVal.nan ≠ FVal.num 0 ∧ FVal.nan ≠ FVal.num 100 ∧ FVal.nan ≠ FVal.inf := by
  refine ⟨?_, by decide, by decide, by decide⟩
  norm_num [calculate_payment_variance, List.dedup, fdiv, FVal.mul100, varianceStatus]

/-- Claim C1 (amended): the divisions computing `Variance_Pct` in
`calculate_payment_variance` and `calculate_budget_adherence` are NOT
guarded by a conditional; the quotient follows IEEE semantics, so a group
with denominator 0 gets NaN when the numerator is 0 and ±∞ otherwise,
and a nonzero denominator gives the finite `variance / denominator * 100`. -/
theorem C1_unguarded_division (cs : List CostRecord) (bs : List BudgetLine)
    (r : VarianceRow) (a : AdherenceRow)
    (hr : r ∈ calculate_payment_variance cs)
    (ha : a ∈ calculate_budget_adherence bs) :
    (r.totalContract ≠ 0 → r.variancePct = FVal.num (r.variance / r.totalContract * 100)) ∧
    (r.totalContract = 0 → 0 < r.variance → r.variancePct = FVal.inf) ∧
    (r.totalContract = 0 → r.variance < 0 → r.variancePct = FVal.ninf) ∧
    (r.totalContract = 0 → r.variance = 0 → r.variancePct = FVal.nan) ∧
    (a.totalBudget ≠ 0 → a.variancePct = FVal.num (a.variance / a.totalBudget * 100)) ∧
    (a.totalBudget = 0 → 0 < a.variance → a.variancePct = FVal.inf) ∧
    (a.totalBudget = 0 → a.variance < 0 → a.variancePct = FVal.ninf) ∧
    (a.totalBudget = 0 → a.variance = 0 → a.variancePct = FVal.nan) := by
  unfold calculate_payment_variance at hr
  rw [List.mem_map] at hr
  obtain ⟨v, hv, hrv⟩ := hr
  subst hrv
  unfold calculate_budget_adherence at ha
  rw [List.mem_map] at ha
  obtain ⟨k, hk, hak⟩ := ha
  subst hak
  dsimp only
  exact ⟨fun h => fdiv_mul100_num h,
         fun hb h => fdiv_mul100_inf hb h,
         fun hb h => fdiv_mul100_ninf hb h,
         fun hb h => fdiv_mul100_nan hb h,
         fun h => fdiv_mul100_num h,
         fun hb h => fdiv_mul100_inf hb h,
         fun hb h => fdiv_mul100_ninf hb h,
         fun hb h => fdiv_mul100_nan hb h⟩

/-- Claim C1 witness: the amended theorem applied to concrete one-row cost
and budget tables whose group denominators are 0. -/
theorem C1_witness :
    ((⟨7, 0, 0, 1, 0, FVal.nan, "On Track"⟩ : VarianceRow).totalContract ≠ 0 →
      (⟨7, 0, 0, 1, 0, FVal.nan, "On Track"⟩ : VarianceRow).variancePct
        = FVal.num ((⟨7, 0, 0, 1, 0, FVal.nan, "On Track"⟩ : VarianceRow).variance
            / (⟨7, 0, 0, 1, 0, FVal.nan, "On Track"⟩ : VarianceRow).totalContract * 100)) ∧
    ((⟨7, 0, 0, 1, 0, FVal.nan, "On Track"⟩ : VarianceRow).totalContract = 0 →
      0 < (⟨7, 0, 0, 1, 0, FVal.nan, "On Track"⟩ : VarianceRow).variance →
      (⟨7, 0, 0, 1, 0, FVal.nan, "On Track"⟩ : VarianceRow).variancePct = FVal.inf) ∧
    ((⟨7, 0, 0, 1, 0, FVal.nan, "On Track"⟩ : VarianceRow).totalContract = 0 →
      (⟨7, 0, 0, 1, 0, FVal.nan, "On Track"⟩ : VarianceRow).variance < 0 →
      (⟨7, 0, 0, 1, 0, FVal.nan, "On Track"⟩ : VarianceRow).variancePct = FVal.ninf) ∧
    ((⟨7, 0, 0, 1, 0, FVal.nan, "On Track"⟩ : VarianceRow).totalContract = 0 →
      (⟨7, 0, 0, 1, 0, FVal.nan, "On Track"⟩ : VarianceRow).variance = 0 →
      (⟨7, 0, 0, 1, 0, FVal.nan, "On Track"⟩ : VarianceRow).variancePct = FVal.nan) ∧
    ((⟨"cc", "gl", 0, 5, 5, FVal.inf, FVal.ninf⟩ : AdherenceRow).totalBudget ≠ 0 →
      (⟨"cc", "gl", 0, 5, 5, FVal.inf, FVal.ninf⟩ : AdherenceRow).variancePct
        = FVal.num ((⟨"cc", "gl", 0, 5, 5, FVal.inf, FVal.ninf⟩ : AdherenceRow).variance
            / (⟨"cc", "gl", 0, 5, 5, FVal.inf, FVal.ninf⟩ : AdherenceRow).totalBudget * 100)) ∧
    ((⟨"cc", "gl", 0, 5, 5, FVal.inf, FVal.ninf⟩ : AdherenceRow).totalBudget = 0 →
      0 < (⟨"cc", "gl", 0, 5, 5, FVal.inf, FVal.ninf⟩ : AdherenceRow).variance →
      (⟨"cc", "gl", 0, 5, 5, FVal.inf, FVal.ninf⟩ : AdherenceRow).variancePct = FVal.inf) ∧
    ((⟨"cc", "gl", 0, 5, 5, FVal.inf, FVal.ninf⟩ : AdherenceRow).totalBudget = 0 →
      (⟨"cc", "gl", 0, 5, 5, FVal.inf, FVal.ninf⟩ : AdherenceRow).variance < 0 →
      (⟨"cc", "gl", 0, 5, 5, FVal.inf, FVal.ninf⟩ : AdherenceRow).variancePct = FVal.ninf) ∧
    ((⟨"cc", "gl", 0, 5, 5, FVal.inf, FVal.ninf⟩ : AdherenceRow).totalBudget = 0 →
      (⟨"cc", "gl", 0, 5, 5, FVal.inf, FVal.ninf⟩ : AdherenceRow).variance = 0 →
      (⟨"cc", "gl", 0, 5, 5, FVal.inf, FVal.ninf⟩ : AdherenceRow).variancePct = FVal.nan) :=
  C1_unguarded_division [⟨1, 7, 0, 0⟩] [⟨0, "cc", "gl", 0, 5⟩]
    ⟨7, 0, 0, 1, 0, FVal.nan, "On Track"⟩ ⟨"cc", "gl", 0, 5, 5, FVal.inf, FVal.ninf⟩
    (by norm_num [calculate_payment_variance, List.dedup, fdiv, FVal.mul100, varianceStatus])
    (by norm_num [calculate_budget_adherence, List.dedup, fdiv, FVal.mul100,
      FVal.fabs, FVal.constSub])

/-! ### Claim C2 -/

set_option maxRecDepth 8000 in
/-- Claim C2 counterexample: a work-order set with a single Preventive
order (no breakdowns): the summary's `MTBF_Hours` is the full period hours
`1 * 1 * 24 = 24`, not 0. -/
theorem C2_counterexample :
    breakdownOrders [⟨1, 1, 0, "Preventive", 2, 50⟩] = [] ∧
    (get_executive_summary [⟨1, 1, 0, "Preventive", 2, 50⟩] [] none none).mtbfHours = 24 ∧
    (get_executive_summary [⟨1, 1, 0, "Preventive", 2, 50⟩] [] none none).mtbfHours ≠ 0 := by
  have h24 :
      (get_executive_summary [⟨1, 1, 0, "Preventive", 2, 50⟩] [] none none).mtbfHours = 24 := by
    have h : (breakdownOrders [⟨1, 1, 0, "Preventive", 2, 50⟩]).length = 0 := by decide
    simp [get_executive_summary, h]
    norm_num [execEqCount, execDays, equipmentKeys, List.dedup, listMax, listMin, round2, rint]
  exact ⟨by decide, h24, by rw [h24]; norm_num⟩

/-- Claim C2 (amended): in `get_executive_summary`, when the work-order
set has no Breakdown orders `MTBF_Hours` is the FULL period hours
`equipment_count * period_days * 24` (rounded to 2 decimals), not 0; when
`failure_count > 0` it is
`(equipment_count * period_days * 24 - total breakdown downtime) /
failure_count`, rounded to 2 decimals. -/
theorem C2_mtbf_fallback (wos : List WorkOrder) (trans : List Transaction)
    (products : Option (List Product)) (eqIds : Option (List ℕ)) :
    ((breakdownOrders wos).length = 0 →
      (get_executive_summary wos trans products eqIds).mtbfHours
        = round2 ((execEqCount wos eqIds : ℚ) * execDays wos * 24)) ∧
    (0 < (breakdownOrders wos).length →
      (get_executive_summary wos trans products eqIds).mtbfHours
        = round2 (((execEqCount wos eqIds : ℚ) * execDays wos * 24
            - ((breakdownOrders wos).map (·.downtimeHours)).sum)
            / ((breakdownOrders wos).length : ℚ))) := by
  constructor
  · intro h
    simp [get_executive_summary, h]
  · intro h
    simp [get_executive_summary, h]

/-- Claim C2 witness: the amended theorem applied to a work-order set with
one Breakdown order (10 downtime hours on a one-day, one-equipment
window). -/
theorem C2_witness :
    0 < (breakdownOrders [⟨1, 1, 0, "Breakdown", 10, 0⟩]).length ∧
    (get_executive_summary [⟨1, 1, 0, "Breakdown", 10, 0⟩] [] none none).mtbfHours
      = round2 (((execEqCount [⟨1, 1, 0, "Breakdown", 10, 0⟩] none : ℚ)
          * execDays [⟨1, 1, 0, "Breakdown", 10, 0⟩] * 24
          - ((breakdownOrders [⟨1, 1, 0, "Breakdown", 10, 0⟩]).map (·.downtimeHours)).sum)
          / ((breakdownOrders [⟨1, 1, 0, "Breakdown", 10, 0⟩]).length : ℚ)) :=
  ⟨by decide,
   (C2_mtbf_fallback [⟨1, 1, 0, "Breakdown", 10, 0⟩] [] none none).2 (by decide)⟩

/-! ### Claim C3 -/

set_option maxRecDepth 8000 in
/-- Claim C3 (code bug evaluated): for the group with `avg_temp = 70 ≤ 85`
(no temperature rule fires) and `max_vibration = 6 > 5.0`, the source
returns the insight `"Normal Operation + Excessive Vibration"` — because
`prob += 0.5` runs before the `if prob > 0` test of the label expression,
the test always sees a positive score and the
`"Excessive Vibration Detected"` branch is unreachable. -/
theorem C3_deadBranch_eval :
    predict_failure_probability [⟨0, 1, 70, 6⟩] 24
      = [{ equipmentID := 1, avgTemp := 70, maxVibration := 6,
           failureProbability := 50,
           insight := "Normal Operation + Excessive Vibration",
           status := "Warning" }] ∧
    "Normal Operation + Excessive Vibration" ≠ "Excessive Vibration Detected" := by
  refine ⟨?_, by decide⟩
  norm_num [predict_failure_probability, List.dedup, List.filter_cons, List.filter_nil,
    meanQ, listMax, tempStep, vibStep, round1, round2, rint]
  decide

/-! ### Claim C5 -/

/-- Claim C5: `calculate_equipment_availability` returns
`Availability_Pct = round(max(0, (T - Σdowntime)/T * 100), 2)` with
`T = equipment_count * period_days * 24`; when `T = 0` it returns the
defined fallback `(100, 0, 0, 0)` instead of raising; concretely one
equipment over 10 days with 24 downtime hours gives 90.0%. -/
theorem C5_availability (wos : List WorkOrder) (ec : ℕ) (d : ℚ) :
    ((ec : ℚ) * d * 24 = 0 →
      calculate_equipment_availability wos ec d = ⟨100, 0, 0, 0⟩) ∧
    ((ec : ℚ) * d * 24 ≠ 0 →
      (calculate_equipment_availability wos ec d).availabilityPct
        = round2 (max 0 (((ec : ℚ) * d * 24 - totalDowntime wos)
            / ((ec : ℚ) * d * 24) * 100))) ∧
    (calculate_equipment_availability [⟨1, 1, 0, "Breakdown", 24, 0⟩] 1 10).availabilityPct
      = 90 := by
  refine ⟨?_, ?_, ?_⟩
  · intro h
    simp [calculate_equipment_availability, h]
  · intro h
    simp [calculate_equipment_availability, h]
  · norm_num [calculate_equipment_availability, totalDowntime, round2, rint]

/-- Claim C5 witness: the generic formula evaluated on the concrete
10-day, 1-equipment, 24-downtime-hour input. -/
theorem C5_witness :
    ((1 : ℕ) : ℚ) * 10 * 24 ≠ 0 ∧
    (calculate_equipment_availability [⟨1, 1, 0, "Breakdown", 24, 0⟩] 1 10).availabilityPct
      = round2 (max 0 ((((1 : ℕ) : ℚ) * 10 * 24 - totalDowntime [⟨1, 1, 0, "Breakdown", 24, 0⟩])
          / (((1 : ℕ) : ℚ) * 10 * 24) * 100)) :=
  ⟨by norm_num,
   (C5_availability [⟨1, 1, 0, "Breakdown", 24, 0⟩] 1 10).2.1 (by norm_num)⟩

/-! ### Claim C6 -/

/-- Claim C6: every row of `calculate_mtbf` has a positive failure count
and `MTBF_Hours = max(0, (days*24 - group downtime) / failure_count)`;
rows exist only for equipment with at least one Breakdown order; an empty
breakdown subset yields the empty table; concretely one failure with 10
downtime hours over 10 days gives `240 - 10 = 230` MTBF hours. -/
theorem C6_mtbf (wos : List WorkOrder) (days : ℚ) :
    (∀ r ∈ calculate_mtbf wos days,
        0 < r.failureCount ∧
        r.mtbfHours = max 0 ((days * 24
            - (((breakdownOrders wos).filter
                  (fun w => w.equipmentID = r.equipmentID)).map (·.downtimeHours)).sum)
            / (r.failureCount : ℚ)) ∧
        ∃ w ∈ wos, w.maintenanceType = "Breakdown" ∧ w.equipmentID = r.equipmentID) ∧
    (breakdownOrders wos = [] → calculate_mtbf wos days = []) ∧
    calculate_mtbf [⟨1, 1, 0, "Breakdown", 10, 0⟩] 10 = [⟨1, 230, 1⟩] := by
  refine ⟨?_, ?_, ?_⟩
  · intro r hr
    unfold calculate_mtbf at hr
    dsimp only at hr
    rw [List.mem_map] at hr
    obtain ⟨k, hk, hrk⟩ := hr
    subst hrk
    dsimp only
    have hkm : k ∈ (breakdownOrders wos).map (·.equipmentID) := by
      simpa [equipmentKeys, List.mem_dedup] using hk
    rw [List.mem_map] at hkm
    obtain ⟨w, hw, hwk⟩ := hkm
    have hwf : w ∈ (breakdownOrders wos).filter (fun x => x.equipmentID = k) := by
      rw [List.mem_filter]
      exact ⟨hw, by simp [hwk]⟩
    have hpos : 0 < ((breakdownOrders wos).filter (fun x => x.equipmentID = k)).length :=
      List.length_pos.mpr (List.ne_nil_of_mem hwf)
    have hw2 := List.mem_filter.mp hw
    exact ⟨hpos, rfl, ⟨w, hw2.1, by simpa using hw2.2, hwk⟩⟩
  · intro h
    unfold calculate_mtbf
    dsimp only
    rw [h]
    simp [equipmentKeys]
  · norm_num [calculate_mtbf, breakdownOrders, equipmentKeys, List.dedup,
      List.filter_cons, List.filter_nil]

/-- Claim C6 witness: the per-row property instantiated at the concrete
single-breakdown input and its computed row `(1, 230, 1)`. -/
theorem C6_witness :
    (⟨1, 230, 1⟩ : MTBFRow) ∈ calculate_mtbf [⟨1, 1, 0, "Breakdown", 10, 0⟩] 10 ∧
    (0 < (⟨1, 230, 1⟩ : MTBFRow).failureCount ∧
     (⟨1, 230, 1⟩ : MTBFRow).mtbfHours = max 0 ((10 * 24
        - (((breakdownOrders [⟨1, 1, 0, "Breakdown", 10, 0⟩]).filter
              (fun w => w.equipmentID = (⟨1, 230, 1⟩ : MTBFRow).equipmentID)).map
              (·.downtimeHours)).sum)
        / (((⟨1, 230, 1⟩ : MTBFRow).failureCount : ℕ) : ℚ)) ∧
     ∃ w ∈ [(⟨1, 1, 0, "Breakdown", 10, 0⟩ : WorkOrder)],
        w.maintenanceType = "Breakdown" ∧ w.equipmentID = (⟨1, 230, 1⟩ : MTBFRow).equipmentID) :=
  ⟨by norm_num [calculate_mtbf, breakdownOrders, equipmentKeys, List.dedup,
      List.filter_cons, List.filter_nil],
   (C6_mtbf [⟨1, 1, 0, "Breakdown", 10, 0⟩] 10).1 ⟨1, 230, 1⟩
     (by norm_num [calculate_mtbf, breakdownOrders, equipmentKeys, List.dedup,
        List.filter_cons, List.filter_nil])⟩

/-! ### Claim C9 -/

/-- Claim C9: when every work order is Preventive or Breakdown and the
table is non-empty, the two `calculate_maintenance_mix` percentages sum to
100 within ±0.1 (each is rounded to one decimal); on the empty table every
field is 0. -/
theorem C9_maintenance_mix (wos : List WorkOrder)
    (hdom : ∀ w ∈ wos, w.maintenanceType = "Preventive" ∨ w.maintenanceType = "Breakdown") :
    (0 < wos.length →
      |(calculate_maintenance_mix wos).preventivePct
        + (calculate_maintenance_mix wos).breakdownPct - 100| ≤ 1/10) ∧
    (wos.length = 0 → calculate_maintenance_mix wos = ⟨0, 0, 0, 0, 0, 0, 0, 0⟩) := by
  constructor
  · intro hpos
    have hpb := length_filter_pb wos hdom
    have hppct : (calculate_maintenance_mix wos).preventivePct
        = round1 (((wos.filter (fun w => w.maintenanceType = "Preventive")).length : ℚ)
            / (wos.length : ℚ) * 100) := by
      simp [calculate_maintenance_mix, hpos]
    have hbpct : (calculate_maintenance_mix wos).breakdownPct
        = round1 (((wos.filter (fun w => w.maintenanceType = "Breakdown")).length : ℚ)
            / (wos.length : ℚ) * 100) := by
      simp [calculate_maintenance_mix, hpos]
    rw [hppct, hbpct]
    have ht : ((wos.length : ℚ)) ≠ 0 := by
      exact_mod_cast Nat.pos_iff_ne_zero.mp hpos
    have hcast : ((wos.filter (fun w => w.maintenanceType = "Preventive")).length : ℚ)
        + ((wos.filter (fun w => w.maintenanceType = "Breakdown")).length : ℚ)
        = (wos.length : ℚ) := by
      exact_mod_cast hpb
    have hsum : ((wos.filter (fun w => w.maintenanceType = "Preventive")).length : ℚ)
          / (wos.length : ℚ) * 100
        + ((wos.filter (fun w => w.maintenanceType = "Breakdown")).length : ℚ)
          / (wos.length : ℚ) * 100 = 100 := by
      field_simp
      linarith
    have h1 := abs_round1_sub_le (((wos.filter (fun w => w.maintenanceType = "Preventive")).length : ℚ)
        / (wos.length : ℚ) * 100)
    have h2 := abs_round1_sub_le (((wos.filter (fun w => w.maintenanceType = "Breakdown")).length : ℚ)
        / (wos.length : ℚ) * 100)
    rw [abs_le] at h1 h2 ⊢
    constructor <;> [linarith [hsum, h1.1, h2.1]; linarith [hsum, h1.2, h2.2]]
  · intro h0
    have hnil : wos = [] := List.length_eq_zero.mp h0
    subst hnil
    decide

/-- Claim C9 witness: two Preventive orders and one Breakdown order give
percentages 66.7 and 33.3, whose sum is within 0.1 of 100. -/
theorem C9_witness :
    0 < ([⟨1, 1, 0, "Preventive", 2, 50⟩, ⟨2, 1, 0, "Breakdown", 10, 0⟩,
          ⟨3, 1, 1, "Preventive", 0, 5⟩] : List WorkOrder).length ∧
    |(calculate_maintenance_mix [⟨1, 1, 0, "Preventive", 2, 50⟩, ⟨2, 1, 0, "Breakdown", 10, 0⟩,
          ⟨3, 1, 1, "Preventive", 0, 5⟩]).preventivePct
      + (calculate_maintenance_mix [⟨1, 1, 0, "Preventive", 2, 50⟩, ⟨2, 1, 0, "Breakdown", 10, 0⟩,
          ⟨3, 1, 1, "Preventive", 0, 5⟩]).breakdownPct - 100| ≤ 1/10 :=
  ⟨by decide,
   (C9_maintenance_mix
      [⟨1, 1, 0, "Preventive", 2, 50⟩, ⟨2, 1, 0, "Breakdown", 10, 0⟩,
       ⟨3, 1, 1, "Preventive", 0, 5⟩] (by decide)).1 (by decide)⟩

/-! ### Claim C7 -/

/-- Claim C7: over the valid domain (rating in [0,5], quality in [0,100],
delay ≥ 0) `compositeScore` lies in [0,100]; it is monotone non-decreasing
in rating and in quality and non-increasing in delay, holding the other
two inputs fixed. -/
theorem C7_vendor_score (r q d r2 q2 d2 : ℚ)
    (hr0 : 0 ≤ r) (hr5 : r ≤ 5) (hq0 : 0 ≤ q) (hq100 : q ≤ 100) (hd0 : 0 ≤ d) :
    (0 ≤ compositeScore r q d ∧ compositeScore r q d ≤ 100) ∧
    (r ≤ r2 → compositeScore r q d ≤ compositeScore r2 q d) ∧
    (q ≤ q2 → compositeScore r q d ≤ compositeScore r q2 d) ∧
    (d ≤ d2 → compositeScore r q d2 ≤ compositeScore r q d) := by
  have hz : round1 ((0 : ℚ)) = 0 := by
    have := round1_intCast (α := ℚ) 0
    simpa using this
  have hh : round1 ((100 : ℚ)) = 100 := by
    have := round1_intCast (α := ℚ) 100
    simpa using this
  refine ⟨⟨?_, ?_⟩, ?_, ?_, ?_⟩
  · have hraw : (0 : ℚ) ≤ min (r * 10 + q * (4/10) + max 0 (10 - d) * 2) 100 := by
      have h1 : (0 : ℚ) ≤ r * 10 := by linarith
      have h2 : (0 : ℚ) ≤ q * (4/10) := by linarith
      have h3 : (0 : ℚ) ≤ max 0 (10 - d) * 2 := by positivity
      have : (0 : ℚ) ≤ r * 10 + q * (4/10) + max 0 (10 - d) * 2 := by linarith
      exact le_min this (by norm_num)
    calc (0 : ℚ) = round1 (0 : ℚ) := hz.symm
      _ ≤ compositeScore r q d := round1_mono hraw
  · have hraw : min (r * 10 + q * (4/10) + max 0 (10 - d) * 2) 100 ≤ (100 : ℚ) :=
      min_le_right _ _
    calc compositeScore r q d ≤ round1 ((100 : ℚ)) := round1_mono hraw
      _ = 100 := hh
  · intro h
    exact round1_mono (min_le_min (by linarith) le_rfl)
  · intro h
    exact round1_mono (min_le_min (by linarith) le_rfl)
  · intro h
    have hm : max 0 (10 - d2) ≤ max 0 (10 - d) :=
      max_le_max le_rfl (by linarith)
    exact round1_mono (min_le_min (by linarith) le_rfl)

/-- Claim C7 witness: the score properties at the concrete vendor with
rating 4, quality 80, delay 2 (score 88) against rating 5, quality 90,
delay 3. -/
theorem C7_witness :
    (0 ≤ compositeScore 4 80 2 ∧ compositeScore 4 80 2 ≤ 100) ∧
    ((4 : ℚ) ≤ 5 → compositeScore 4 80 2 ≤ compositeScore 5 80 2) ∧
    ((80 : ℚ) ≤ 90 → compositeScore 4 80 2 ≤ compositeScore 4 90 2) ∧
    ((2 : ℚ) ≤ 3 → compositeScore 4 80 3 ≤ compositeScore 4 80 2) :=
  C7_vendor_score 4 80 2 5 90 3 (by norm_num) (by norm_num) (by norm_num)
    (by norm_num) (by norm_num)

/-! ### Claim C8 -/

/-- Claim C8: every row of `calculate_stock_coverage_days` has status
"No Usage" exactly when its average daily usage is 0 (products absent from
the Issue transactions included, via the `fillna(0)` merge), regardless of
current stock; and when the usage is positive the coverage is the finite
`current_stock / avg_daily_usage` (the `inf` sentinel otherwise, matched
before the numeric thresholds). -/
theorem C8_stock_coverage (ts : List Transaction) (ps : List Product) (row : CoverageRow)
    (hrow : row ∈ calculate_stock_coverage_days ts ps) :
    (row.coverageStatus = "No Usage" ↔ row.avgDailyUsage = 0) ∧
    (0 < row.avgDailyUsage →
      row.coverageDays = Coverage.days (row.currentStock / row.avgDailyUsage)) ∧
    (row.avgDailyUsage = 0 → row.coverageDays = Coverage.inf) := by
  unfold calculate_stock_coverage_days at hrow
  rw [List.mem_map] at hrow
  obtain ⟨p, hp, hrk⟩ := hrow
  subst hrk
  dsimp only
  have hnn := avgDailyUsage_nonneg ts p.productID
  rcases lt_or_eq_of_le hnn with hpos | heq
  · have hcd : coverageDays p.currentStock (avgDailyUsage ts p.productID)
        = Coverage.days (p.currentStock / avgDailyUsage ts p.productID) := by
      simp [coverageDays, hpos]
    refine ⟨?_, fun _ => hcd, ?_⟩
    · rw [hcd]
      constructor
      · intro hst
        exfalso
        simp only [coverageStatus] at hst
        split_ifs at hst <;> simp at hst
      · intro h0
        rw [h0] at hpos
        exact absurd hpos (lt_irrefl 0)
    · intro h0
      rw [h0] at hpos
      exact absurd hpos (lt_irrefl 0)
  · have h0 : avgDailyUsage ts p.productID = 0 := heq.symm
    have hcd : coverageDays p.currentStock (avgDailyUsage ts p.productID)
        = Coverage.inf := by
      simp [coverageDays, h0]
    refine ⟨?_, ?_, fun _ => hcd⟩
    · rw [hcd]
      simp [coverageStatus, h0]
    · intro hpos2
      rw [h0] at hpos2
      exact absurd hpos2 (lt_irrefl 0)

/-- Claim C8 witness: a product with positive stock but absent from the
Issue transactions gets usage 0, the `inf` sentinel and status
"No Usage". -/
theorem C8_witness :
    (⟨6, 3, 0, Coverage.inf, "No Usage"⟩ : CoverageRow)
      ∈ calculate_stock_coverage_days [⟨1, 5, 0, -14, "Issue", 1⟩] [⟨6, 3, 10⟩] ∧
    (((⟨6, 3, 0, Coverage.inf, "No Usage"⟩ : CoverageRow).coverageStatus = "No Usage"
        ↔ (⟨6, 3, 0, Coverage.inf, "No Usage"⟩ : CoverageRow).avgDailyUsage = 0) ∧
     (0 < (⟨6, 3, 0, Coverage.inf, "No Usage"⟩ : CoverageRow).avgDailyUsage →
        (⟨6, 3, 0, Coverage.inf, "No Usage"⟩ : CoverageRow).coverageDays
          = Coverage.days ((⟨6, 3, 0, Coverage.inf, "No Usage"⟩ : CoverageRow).currentStock
              / (⟨6, 3, 0, Coverage.inf, "No Usage"⟩ : CoverageRow).avgDailyUsage)) ∧
     ((⟨6, 3, 0, Coverage.inf, "No Usage"⟩ : CoverageRow).avgDailyUsage = 0 →
        (⟨6, 3, 0, Coverage.inf, "No Usage"⟩ : CoverageRow).coverageDays = Coverage.inf)) :=
  ⟨by norm_num [calculate_stock_coverage_days, avgDailyUsage, issueTrans, coverageDays,
      coverageStatus, List.filter_cons, List.filter_nil],
   C8_stock_coverage [⟨1, 5, 0, -14, "Issue", 1⟩] [⟨6, 3, 10⟩]
     ⟨6, 3, 0, Coverage.inf, "No Usage"⟩
     (by norm_num [calculate_stock_coverage_days, avgDailyUsage, issueTrans, coverageDays,
        coverageStatus, List.filter_cons, List.filter_nil])⟩

/-! ### Claim C10 -/

/-- Claim C10: on the executive-summary path the derived period days are
at least 1 (inclusive span + 1, or the 365 fallback) and the derived
equipment count is at least 1 (supplied list length, distinct IDs, or the
fallback 1), so the availability call's total hours are positive and its
zero-hours fallback branch is unreachable: the result is always the
division-branch record. -/
theorem C10_exec_guard (wos : List WorkOrder) (eqIds : Option (List ℕ)) :
    1 ≤ execDays wos ∧
    1 ≤ execEqCount wos eqIds ∧
    0 < (execEqCount wos eqIds : ℚ) * execDays wos * 24 ∧
    calculate_equipment_availability wos (execEqCount wos eqIds) (execDays wos)
      = { availabilityPct := round2 (max 0 ((((execEqCount wos eqIds : ℚ) * execDays wos * 24)
            - totalDowntime wos) / ((execEqCount wos eqIds : ℚ) * execDays wos * 24) * 100))
          totalDowntimeHours := round2 (totalDowntime wos)
          totalAvailableHours := round2 ((execEqCount wos eqIds : ℚ) * execDays wos * 24)
          uptimeHours := round2 (max 0 (((execEqCount wos eqIds : ℚ) * execDays wos * 24)
            - totalDowntime wos)) } := by
  have hdays : 1 ≤ execDays wos := by
    unfold execDays
    split_ifs with h
    · norm_num
    · have hne : wos ≠ [] := by
        intro hnil
        rw [hnil] at h
        simp at h
      have hm := listMin_le_listMax (0 : ℤ) (wos.map (·.date))
        (by simpa [List.map_eq_nil_iff] using hne)
      have h1 : (1 : ℤ) ≤ listMax 0 (wos.map (·.date)) - listMin 0 (wos.map (·.date)) + 1 := by
        omega
      exact_mod_cast h1
  have hkeys : ∀ l : List WorkOrder, l ≠ [] → 1 ≤ (equipmentKeys l).length := by
    intro l hl
    cases l with
    | nil => exact absurd rfl hl
    | cons w ws =>
      have hmem : w.equipmentID ∈ ((w :: ws).map (·.equipmentID)).dedup :=
        List.mem_dedup.mpr (List.mem_map.mpr ⟨w, List.mem_cons_self w ws, rfl⟩)
      exact List.length_pos.mpr (List.ne_nil_of_mem hmem)
  have heq1 : 1 ≤ execEqCount wos eqIds := by
    cases eqIds with
    | none =>
      simp only [execEqCount]
      split_ifs with h
      · exact le_refl 1
      · exact hkeys wos (by simpa [List.isEmpty_iff] using h)
    | some l =>
      cases l with
      | nil =>
        simp only [execEqCount]
        split_ifs with h
        · exact le_refl 1
        · exact hkeys wos (by simpa [List.isEmpty_iff] using h)
      | cons x xs =>
        simp [execEqCount]
  have hT : 0 < (execEqCount wos eqIds : ℚ) * execDays wos * 24 := by
    have h1 : (0 : ℚ) < (execEqCount wos eqIds : ℚ) := by
      exact_mod_cast heq1
    have h2 : (0 : ℚ) < execDays wos := lt_of_lt_of_le one_pos hdays
    exact mul_pos (mul_pos h1 h2) (by norm_num)
  refine ⟨hdays, heq1, hT, ?_⟩
  unfold calculate_equipment_availability
  dsimp only
  rw [if_neg (ne_of_gt hT)]

/-! ### Claim C4 -/

/-- Claim C4 counterexample: for the budget table with monthly totals
`[0, 2]` and `months_ahead = 1` the claim predicts
`LowerBound = forecast - population std = 1.02 - 1 = 0.02`, but the code
uses pandas `std()` (the SAMPLE standard deviation, here `√2`), so its
`LowerBound` is `round(1.02 - √2, 2) = -0.39 ≠ 0.02`. -/
theorem C4_counterexample :
    (forecast_maintenance_costs fcBudgetCex 1).map ForecastRow.lowerBound
      ≠ [((meanQ (trailingWindow fcBudgetCex) : ℚ) : ℝ) * (1 + ((1 : ℕ) : ℝ) * (2/100))
          - Real.sqrt ((popVar (trailingWindow fcBudgetCex) : ℚ) : ℝ)] := by
  have hrow : (forecast_maintenance_costs fcBudgetCex 1).map ForecastRow.lowerBound
      = [round2 (((meanQ (trailingWindow fcBudgetCex) : ℚ) : ℝ) * (1 + ((0 + 1 : ℕ) : ℝ) * (2/100))
          - Real.sqrt ((sampleVar (trailingWindow fcBudgetCex) : ℚ) : ℝ))] := by
    unfold forecast_maintenance_costs
    dsimp only
    have hr1 : List.range 1 = [0] := rfl
    rw [hr1]
    simp only [List.map_cons, List.map_nil]
  rw [hrow]
  have hw : trailingWindow fcBudgetCex = [0, 2] := by
    norm_num [trailingWindow, monthlyTotals, tail6, sortZ, insertSorted, List.dedup,
      fcBudgetCex, List.filter_cons, List.filter_nil]
  rw [hw]
  have hmean : meanQ [(0:ℚ), 2] = 1 := by norm_num [meanQ]
  have hsamp : sampleVar [(0:ℚ), 2] = 2 := by norm_num [sampleVar, meanQ]
  have hpop : popVar [(0:ℚ), 2] = 1 := by norm_num [popVar, meanQ]
  rw [hmean, hsamp, hpop]
  simp only [ne_eq, List.cons.injEq, and_true]
  intro hel
  have hlb : (1.41 : ℝ) < Real.sqrt ((2:ℚ) : ℝ) := by
    have hc : ((2:ℚ) : ℝ) = 2 := by norm_num
    rw [hc]
    nlinarith [Real.sq_sqrt (by norm_num : (0:ℝ) ≤ 2), Real.sqrt_nonneg 2]
  have hs1 : Real.sqrt ((1:ℚ) : ℝ) = 1 := by
    have hc : ((1:ℚ) : ℝ) = 1 := by norm_num
    rw [hc, Real.sqrt_one]
  have hb := abs_round2_sub_le (α := ℝ)
    (((1:ℚ) : ℝ) * (1 + ((0 + 1 : ℕ) : ℝ) * (2/100)) - Real.sqrt ((2:ℚ) : ℝ))
  rw [abs_le] at hb
  rw [hs1] at hel
  have hc1 : ((1:ℚ) : ℝ) = 1 := by norm_num
  have hc0 : ((0 + 1 : ℕ) : ℝ) = 1 := by norm_num
  have hc2 : ((1 : ℕ) : ℝ) = 1 := by norm_num
  rw [hc1, hc0, hc2] at *
  linarith [hb.2, hlb, hel]

/-- Claim C4 (amended): `forecast_maintenance_costs` aggregates to monthly
totals, takes the trailing 6 months, and for each future month `i` in
`1..months_ahead` emits `forecast = avg * (1 + 0.02*i)` with bounds
`forecast ∓ std_dev`, each rounded to 2 decimals — where `std_dev` is the
SAMPLE standard deviation (pandas `std()`, `ddof=1`) of the window, not
the population standard deviation; the window must hold at least two
months for the standard deviation to be defined. -/
theorem C4_forecast_sampleStd (bs : List BudgetLine) (m i : ℕ)
    (hwin : 2 ≤ (trailingWindow bs).length) (h1 : 1 ≤ i) (him : i ≤ m) :
    (forecast_maintenance_costs bs m).length = m ∧
    (forecast_maintenance_costs bs m).get? (i - 1) = some
      { date := listMax 0 ((monthlyTotals bs).map Prod.fst) + (i : ℤ)
        forecastAmount := round2 (((meanQ (trailingWindow bs) : ℚ) : ℝ)
            * (1 + (i : ℝ) * (2/100)))
        lowerBound := round2 (((meanQ (trailingWindow bs) : ℚ) : ℝ) * (1 + (i : ℝ) * (2/100))
            - Real.sqrt ((sampleVar (trailingWindow bs) : ℚ) : ℝ))
        upperBound := round2 (((meanQ (trailingWindow bs) : ℚ) : ℝ) * (1 + (i : ℝ) * (2/100))
            + Real.sqrt ((sampleVar (trailingWindow bs) : ℚ) : ℝ)) } := by
  constructor
  · unfold forecast_maintenance_costs
    dsimp only
    rw [List.length_map, List.length_range]
  · unfold forecast_maintenance_costs
    dsimp only
    have hi : i - 1 < m := by omega
    rw [List.get?_map, List.get?_range hi]
    have hii : i - 1 + 1 = i := by omega
    simp only [Option.map_some']
    rw [hii]

/-- Claim C4 witness: the amended row formula applied to the concrete
two-month budget table with equal totals (sample standard deviation 0). -/
theorem C4_witness :
    2 ≤ (trailingWindow fcBudgetWit).length ∧
    ((forecast_maintenance_costs fcBudgetWit 1).length = 1 ∧
     (forecast_maintenance_costs fcBudgetWit 1).get? (1 - 1) = some
       { date := listMax 0 ((monthlyTotals fcBudgetWit).map Prod.fst) + ((1 : ℕ) : ℤ)
         forecastAmount := round2 (((meanQ (trailingWindow fcBudgetWit) : ℚ) : ℝ)
             * (1 + ((1 : ℕ) : ℝ) * (2/100)))
         lowerBound := round2 (((meanQ (trailingWindow fcBudgetWit) : ℚ) : ℝ)
             * (1 + ((1 : ℕ) : ℝ) * (2/100))
             - Real.sqrt ((sampleVar (trailingWindow fcBudgetWit) : ℚ) : ℝ))
         upperBound := round2 (((meanQ (trailingWindow fcBudgetWit) : ℚ) : ℝ)
             * (1 + ((1 : ℕ) : ℝ) * (2/100))
             + Real.sqrt ((sampleVar (trailingWindow fcBudgetWit) : ℚ) : ℝ)) }) :=
  ⟨by norm_num [trailingWindow, monthlyTotals, tail6, sortZ, insertSorted, List.dedup,
      fcBudgetWit, List.filter_cons, List.filter_nil],
   C4_forecast_sampleStd fcBudgetWit 1 1
     (by norm_num [trailingWindow, monthlyTotals, tail6, sortZ, insertSorted, List.dedup,
        fcBudgetWit, List.filter_cons, List.filter_nil])
     (le_refl 1) (le_refl 1)⟩

end MaintDash
